import Mathlib

/-!
Verification of the iOS entitlements-generation hook
(src/hooks/lib/ios/projectEntitlements.js).

The script reads the debug and release entitlements property-list files
(falling back to an empty document when a file cannot be read), injects the
associated-domains list computed from the configured hosts, and writes both
files back, memoizing the computed file paths and project name in
module-level variables.

The embedding below translates the script function by function.  External
collaborators (the plist library, the node path module, the filesystem, and
ConfigXmlHelper) are modelled explicitly where noted.
-/

/-- A host entry from config.xml: a record with a name field. -/
structure Host where
  name : String
deriving DecidableEq, Repr

/-- Parsed plugin preferences: the ordered list of hosts from config.xml. -/
structure PluginPreferences where
  hosts : List Host
deriving DecidableEq, Repr

/-- A property-list value.  The plist value universe (strings, arrays,
numbers, booleans, nested structures) is modelled to the depth the script
manipulates it: the script only ever writes an array of strings and passes
every other value through untouched, so unrelated values are carried as
uninterpreted payloads by the remaining constructors. -/
inductive PValue where
  | str (s : String)
  | strArr (elems : List String)
  | boolean (b : Bool)
  | integer (n : Int)
deriving DecidableEq, Repr

/-- An entitlements document: a JS object mapping string keys to plist
values, represented as an association list in key-insertion order. -/
abbrev Doc := List (String × PValue)

/-- Lookup of a key in an association list (JS property read). -/
def assocLookup {β : Type} (k : String) : List (String × β) → Option β
  | [] => none
  | (k0, v0) :: rest => if k = k0 then some v0 else assocLookup k rest

/-- JS property assignment on an object in insertion order: if the key is
present its value is replaced in place, otherwise the pair is appended. -/
def assocSet {β : Type} : List (String × β) → String → β → List (String × β)
  | [], k, v => [(k, v)]
  | (k0, v0) :: rest, k, v =>
      if k0 = k then (k, v) :: rest else (k0, v0) :: assocSet rest k v

/-- The fixed entitlements key written by the script. -/
def ASSOCIATED_DOMAINS : String := "com.apple.developer.associated-domains"

/-- The cordova context object, as far as the script reads it.  The
configProjectName field stands for the project name stored in config.xml.
Modelled from the spec: ConfigXmlHelper (hooks/lib/configXmlHelper.js, not
under src/) derives the project name from the project configuration; it is
modelled as a field carried by the context. -/
structure ContextOpts where
  projectRoot : String
deriving DecidableEq, Repr

structure Context where
  opts : ContextOpts
  configProjectName : String
deriving DecidableEq, Repr

/-- Modelled from the spec: new ConfigXmlHelper(context).getProjectName()
returns the project name derived from the project configuration. -/
def configXmlHelperGetProjectName (c : Context) : String :=
  c.configProjectName

/-- The module-level mutable variables of the script: context,
projectName, debugEntitlementsFilePath and releaseEntitlementsFilePath.
A value none models a variable that is still undefined. -/
structure ModuleState where
  context : Option Context
  projectName : Option String
  debugEntitlementsFilePath : Option String
  releaseEntitlementsFilePath : Option String
deriving DecidableEq, Repr

/-- Module state at load time: every module-level variable undefined. -/
def ModuleState.init : ModuleState :=
  ⟨none, none, none, none⟩

/-- Modelled node path.join on plain segments: joins with the separator. -/
def pathJoin (parts : List String) : String :=
  String.intercalate "/" parts

/-- Splits a character list at every separator character. -/
def splitPath : List Char → List (List Char)
  | [] => [[]]
  | c :: rest =>
      let r := splitPath rest
      if c = '/' then [] :: r
      else
        match r with
        | [] => [[c]]
        | h :: t => (c :: h) :: t

/-- Modelled node path.dirname: drops the last path component. -/
def pathDirname (p : String) : String :=
  String.intercalate "/"
    (((splitPath p.data).map (fun cs => String.mk cs)).dropLast)

/-- getProjectRoot: reads context.opts.projectRoot.  The none branch is
unreachable through the public API because generateEntitlements assigns
context before any path helper runs. -/
def getProjectRoot (st : ModuleState) : String :=
  match st.context with
  | some c => c.opts.projectRoot
  | none => ""

/-- getProjectName: returns the cached project name, computing and caching
it through ConfigXmlHelper on first use. -/
def getProjectName (st : ModuleState) : String × ModuleState :=
  match st.projectName with
  | some n => (n, st)
  | none =>
      match st.context with
      | some c =>
          let n := configXmlHelperGetProjectName c
          (n, { st with projectName := some n })
      | none => ("", st)

/-- pathToDebugEntitlementsFile: returns the cached debug path, computing
and caching it on first use. -/
def pathToDebugEntitlementsFile (st : ModuleState) : String × ModuleState :=
  match st.debugEntitlementsFilePath with
  | some p => (p, st)
  | none =>
      let r := getProjectName st
      let p := pathJoin [getProjectRoot st, "platforms", "ios", r.1,
        "Entitlements-Debug.plist"]
      (p, { r.2 with debugEntitlementsFilePath := some p })

/-- pathToReleaseEntitlementsFile: returns the cached release path,
computing and caching it on first use. -/
def pathToReleaseEntitlementsFile (st : ModuleState) : String × ModuleState :=
  match st.releaseEntitlementsFilePath with
  | some p => (p, st)
  | none =>
      let r := getProjectName st
      let p := pathJoin [getProjectRoot st, "platforms", "ios", r.1,
        "Entitlements-Release.plist"]
      (p, { r.2 with releaseEntitlementsFilePath := some p })

/-- Errors that can surface from the script: a failing file read (caught by
the script), a plist parse failure, and mkpath and write failures. -/
inductive JsError where
  | readError
  | parseError
  | mkpathError
  | writeError
deriving DecidableEq, Repr

/-- Content of a file on disk.  Modelled from the spec: the external plist
library serializes a document with build and recovers exactly that document
with parse, while content that is not a property list makes parse fail.
plistOf d is the build output for document d; junk s is any other byte
content. -/
inductive FileData where
  | plistOf (d : Doc)
  | junk (s : String)
deriving DecidableEq, Repr

/-- plist.build: serialize a document. -/
def plistBuild (d : Doc) : FileData :=
  FileData.plistOf d

/-- plist.parse: recover the document from build output, fail on any other
content. -/
def plistParse : FileData → Except JsError Doc
  | FileData.plistOf d => Except.ok d
  | FileData.junk _ => Except.error JsError.parseError

/-- The filesystem visible to the script: file contents by path, plus the
sets of directory paths whose creation fails and file paths whose write
fails (modelling filesystem errors such as permission denial). -/
structure FsState where
  files : List (String × FileData)
  mkpathFailures : List String
  writeFailures : List String
deriving DecidableEq, Repr

/-- fs.readFileSync: returns the content at the path, throws if absent. -/
def readFileSync (fs : FsState) (p : String) : Except JsError FileData :=
  match assocLookup p fs.files with
  | some d => Except.ok d
  | none => Except.error JsError.readError

/-- mkpath.sync: throws when directory creation fails for this path. -/
def mkpathSync (fs : FsState) (dir : String) : Except JsError Unit :=
  if dir ∈ fs.mkpathFailures then Except.error JsError.mkpathError
  else Except.ok ()

/-- fs.writeFileSync: overwrites the content at the path, throws when the
write fails. -/
def writeFileSync (fs : FsState) (p : String) (d : FileData) :
    Except JsError FsState :=
  if p ∈ fs.writeFailures then Except.error JsError.writeError
  else Except.ok { fs with files := assocSet fs.files p d }

/-- defaultEntitlementsFile: content for an empty entitlements file. -/
def defaultEntitlementsFile : Doc := []

/-- domainsListEntryForHost: the domain record for one host. -/
def domainsListEntryForHost (host : Host) : String :=
  "applinks:" ++ host.name

/-- generateAssociatedDomainsContent: the list of host links, each pushed
only when not already present (indexOf equal to minus one). -/
def generateAssociatedDomainsContent (pluginPreferences : PluginPreferences) :
    List String :=
  pluginPreferences.hosts.foldl
    (fun domainsList host =>
      let link := domainsListEntryForHost host
      if link ∈ domainsList then domainsList else domainsList ++ [link])
    []

/-- injectPreferences: assign the generated associated-domains list under
the fixed key, keeping every other key of the document. -/
def injectPreferences (currentEntitlements : Doc)
    (pluginPreferences : PluginPreferences) : Doc :=
  assocSet currentEntitlements ASSOCIATED_DOMAINS
    (PValue.strArr (generateAssociatedDomainsContent pluginPreferences))

/-- getDebugEntitlementsFileContent: read the debug file; on a read failure
return the default document; otherwise parse (a parse failure is not
caught). -/
def getDebugEntitlementsFileContent (st : ModuleState) (fs : FsState) :
    Except JsError (Doc × ModuleState) :=
  let r := pathToDebugEntitlementsFile st
  match readFileSync fs r.1 with
  | Except.error _ => Except.ok (defaultEntitlementsFile, r.2)
  | Except.ok content =>
      match plistParse content with
      | Except.ok d => Except.ok (d, r.2)
      | Except.error e => Except.error e

/-- getReleaseEntitlementsFileContent: read the release file; on a read
failure return the default document; otherwise parse (a parse failure is
not caught). -/
def getReleaseEntitlementsFileContent (st : ModuleState) (fs : FsState) :
    Except JsError (Doc × ModuleState) :=
  let r := pathToReleaseEntitlementsFile st
  match readFileSync fs r.1 with
  | Except.error _ => Except.ok (defaultEntitlementsFile, r.2)
  | Except.ok content =>
      match plistParse content with
      | Except.ok d => Except.ok (d, r.2)
      | Except.error e => Except.error e

/-- saveContentToEntitlementsFile: build both documents, ensure both parent
directories exist, then write both files.  Every failure propagates. -/
def saveContentToEntitlementsFile (debugContent releaseContent : Doc)
    (st : ModuleState) (fs : FsState) :
    Except JsError (ModuleState × FsState) :=
  let debugPlistContent := plistBuild debugContent
  let releasePlistContent := plistBuild releaseContent
  let a := pathToDebugEntitlementsFile st
  let b := pathToReleaseEntitlementsFile a.2
  match mkpathSync fs (pathDirname a.1) with
  | Except.error e => Except.error e
  | Except.ok _ =>
  match mkpathSync fs (pathDirname b.1) with
  | Except.error e => Except.error e
  | Except.ok _ =>
  match writeFileSync fs a.1 debugPlistContent with
  | Except.error e => Except.error e
  | Except.ok fs1 =>
  match writeFileSync fs1 b.1 releasePlistContent with
  | Except.error e => Except.error e
  | Except.ok fs2 => Except.ok (b.2, fs2)

/-- generateEntitlements: the public entry point.  Assigns the context
variable, loads both current documents, injects the preferences into each,
and saves both results. -/
def generateEntitlements (cordovaContext : Context)
    (pluginPreferences : PluginPreferences)
    (st : ModuleState) (fs : FsState) :
    Except JsError (ModuleState × FsState) :=
  let st0 := { st with context := some cordovaContext }
  match getDebugEntitlementsFileContent st0 fs with
  | Except.error e => Except.error e
  | Except.ok (currentDebugEntitlements, st1) =>
  match getReleaseEntitlementsFileContent st1 fs with
  | Except.error e => Except.error e
  | Except.ok (currentReleaseEntitlements, st2) =>
  let newDebugEntitlements :=
    injectPreferences currentDebugEntitlements pluginPreferences
  let newReleaseEntitlements :=
    injectPreferences currentReleaseEntitlements pluginPreferences
  saveContentToEntitlementsFile newDebugEntitlements newReleaseEntitlements
    st2 fs

/-! ### Association-list lemmas -/

theorem assocLookup_assocSet_self {β : Type} (l : List (String × β))
    (k : String) (v : β) : assocLookup k (assocSet l k v) = some v := by
  induction l with
  | nil => simp [assocSet, assocLookup]
  | cons hd tl ih =>
      obtain ⟨k0, v0⟩ := hd
      by_cases h : k0 = k
      · subst h
        simp [assocSet, assocLookup]
      · simp only [assocSet, if_neg h, assocLookup, if_neg (Ne.symm h)]
        exact ih

theorem assocLookup_assocSet_ne {β : Type} (l : List (String × β))
    (k k' : String) (v : β) (h : k' ≠ k) :
    assocLookup k' (assocSet l k v) = assocLookup k' l := by
  induction l with
  | nil => simp [assocSet, assocLookup, h]
  | cons hd tl ih =>
      obtain ⟨k0, v0⟩ := hd
      by_cases h0 : k0 = k
      · subst h0
        simp [assocSet, assocLookup, h]
      · simp only [assocSet, if_neg h0, assocLookup]
        by_cases h1 : k' = k0
        · simp [h1]
        · simp [h1, ih]

theorem assocSet_assocSet_same {β : Type} (l : List (String × β))
    (k : String) (v w : β) : assocSet (assocSet l k v) k w = assocSet l k w := by
  induction l with
  | nil => simp [assocSet]
  | cons hd tl ih =>
      obtain ⟨k0, v0⟩ := hd
      by_cases h : k0 = k
      · subst h
        simp [assocSet]
      · simp [assocSet, h, ih]

theorem assocSet_of_lookup_eq {β : Type} (l : List (String × β))
    (k : String) (v : β) (h : assocLookup k l = some v) :
    assocSet l k v = l := by
  induction l with
  | nil => simp [assocLookup] at h
  | cons hd tl ih =>
      obtain ⟨k0, v0⟩ := hd
      by_cases h0 : k0 = k
      · subst h0
        simp [assocLookup] at h
        subst h
        simp [assocSet]
      · simp only [assocLookup, if_neg (Ne.symm h0)] at h
        simp [assocSet, h0, ih h]

/-! ### Document-injection lemmas -/

theorem injectPreferences_lookup_self (d : Doc) (prefs : PluginPreferences) :
    assocLookup ASSOCIATED_DOMAINS (injectPreferences d prefs) =
      some (PValue.strArr (generateAssociatedDomainsContent prefs)) :=
  assocLookup_assocSet_self d ASSOCIATED_DOMAINS _

theorem injectPreferences_lookup_ne (d : Doc) (prefs : PluginPreferences)
    (k : String) (h : k ≠ ASSOCIATED_DOMAINS) :
    assocLookup k (injectPreferences d prefs) = assocLookup k d :=
  assocLookup_assocSet_ne d ASSOCIATED_DOMAINS k _ h

theorem injectPreferences_idem (d : Doc) (prefs : PluginPreferences) :
    injectPreferences (injectPreferences d prefs) prefs =
      injectPreferences d prefs :=
  assocSet_assocSet_same d ASSOCIATED_DOMAINS _ _

/-! ### Module-state and path-helper lemmas -/

theorem ModuleState.withContext_self (st : ModuleState) (c : Context)
    (h : st.context = some c) : { st with context := some c } = st := by
  obtain ⟨a, b, d, e⟩ := st
  simp only at h
  subst h
  rfl

theorem FsState.files_self (fs : FsState) :
    { fs with files := fs.files } = fs := by
  obtain ⟨a, b, c⟩ := fs
  rfl

theorem getProjectName_context (st : ModuleState) :
    (getProjectName st).2.context = st.context := by
  obtain ⟨c, pn, dp, rp⟩ := st
  cases pn <;> cases c <;> simp [getProjectName]

theorem getProjectName_debugPath (st : ModuleState) :
    (getProjectName st).2.debugEntitlementsFilePath =
      st.debugEntitlementsFilePath := by
  obtain ⟨c, pn, dp, rp⟩ := st
  cases pn <;> cases c <;> simp [getProjectName]

theorem getProjectName_releasePath (st : ModuleState) :
    (getProjectName st).2.releaseEntitlementsFilePath =
      st.releaseEntitlementsFilePath := by
  obtain ⟨c, pn, dp, rp⟩ := st
  cases pn <;> cases c <;> simp [getProjectName]

theorem getProjectName_cached (st : ModuleState) (n : String)
    (h : st.projectName = some n) : getProjectName st = (n, st) := by
  obtain ⟨c, pn, dp, rp⟩ := st
  simp only at h
  subst h
  simp [getProjectName]

theorem pathToDebug_cached (st : ModuleState) (p : String)
    (h : st.debugEntitlementsFilePath = some p) :
    pathToDebugEntitlementsFile st = (p, st) := by
  obtain ⟨c, pn, dp, rp⟩ := st
  simp only at h
  subst h
  simp [pathToDebugEntitlementsFile]

theorem pathToRelease_cached (st : ModuleState) (p : String)
    (h : st.releaseEntitlementsFilePath = some p) :
    pathToReleaseEntitlementsFile st = (p, st) := by
  obtain ⟨c, pn, dp, rp⟩ := st
  simp only at h
  subst h
  simp [pathToReleaseEntitlementsFile]

theorem pathToDebug_sets_cache (st : ModuleState) :
    (pathToDebugEntitlementsFile st).2.debugEntitlementsFilePath =
      some (pathToDebugEntitlementsFile st).1 := by
  obtain ⟨c, pn, dp, rp⟩ := st
  cases dp <;> simp [pathToDebugEntitlementsFile, getProjectName_debugPath]

theorem pathToDebug_context (st : ModuleState) :
    (pathToDebugEntitlementsFile st).2.context = st.context := by
  obtain ⟨c, pn, dp, rp⟩ := st
  cases dp <;> simp [pathToDebugEntitlementsFile, getProjectName_context]

theorem pathToDebug_releasePath (st : ModuleState) :
    (pathToDebugEntitlementsFile st).2.releaseEntitlementsFilePath =
      st.releaseEntitlementsFilePath := by
  obtain ⟨c, pn, dp, rp⟩ := st
  cases dp <;> simp [pathToDebugEntitlementsFile, getProjectName_releasePath]

theorem pathToRelease_sets_cache (st : ModuleState) :
    (pathToReleaseEntitlementsFile st).2.releaseEntitlementsFilePath =
      some (pathToReleaseEntitlementsFile st).1 := by
  obtain ⟨c, pn, dp, rp⟩ := st
  cases rp <;> simp [pathToReleaseEntitlementsFile, getProjectName_releasePath]

theorem pathToRelease_context (st : ModuleState) :
    (pathToReleaseEntitlementsFile st).2.context = st.context := by
  obtain ⟨c, pn, dp, rp⟩ := st
  cases rp <;> simp [pathToReleaseEntitlementsFile, getProjectName_context]

theorem pathToRelease_debugPath (st : ModuleState) :
    (pathToReleaseEntitlementsFile st).2.debugEntitlementsFilePath =
      st.debugEntitlementsFilePath := by
  obtain ⟨c, pn, dp, rp⟩ := st
  cases rp <;> simp [pathToReleaseEntitlementsFile, getProjectName_debugPath]

/-! ### Characterization of one generate run -/

/-- The document the script obtains for the file at path p: the default
document when the read fails, otherwise the parse result (whose failure is
not caught). -/
def readDocAt (fs : FsState) (p : String) : Except JsError Doc :=
  match readFileSync fs p with
  | Except.error _ => Except.ok defaultEntitlementsFile
  | Except.ok content => plistParse content

/-- The debug file path computed inside a generateEntitlements call entered
with module state st and context ctx. -/
def debugPathOf (st : ModuleState) (ctx : Context) : String :=
  (pathToDebugEntitlementsFile { st with context := some ctx }).1

/-- Module state right after the debug path helper ran. -/
def midStateOf (st : ModuleState) (ctx : Context) : ModuleState :=
  (pathToDebugEntitlementsFile { st with context := some ctx }).2

/-- The release file path computed inside the same call. -/
def releasePathOf (st : ModuleState) (ctx : Context) : String :=
  (pathToReleaseEntitlementsFile (midStateOf st ctx)).1

/-- Module state after both path helpers ran: the final module state of
every successful generateEntitlements call. -/
def stateAfterOf (st : ModuleState) (ctx : Context) : ModuleState :=
  (pathToReleaseEntitlementsFile (midStateOf st ctx)).2

theorem stateAfterOf_debug_cache (st : ModuleState) (ctx : Context) :
    (stateAfterOf st ctx).debugEntitlementsFilePath =
      some (debugPathOf st ctx) := by
  rw [stateAfterOf, pathToRelease_debugPath, midStateOf, pathToDebug_sets_cache]
  rfl

theorem stateAfterOf_release_cache (st : ModuleState) (ctx : Context) :
    (stateAfterOf st ctx).releaseEntitlementsFilePath =
      some (releasePathOf st ctx) := by
  rw [stateAfterOf, pathToRelease_sets_cache]
  rfl

theorem stateAfterOf_context (st : ModuleState) (ctx : Context) :
    (stateAfterOf st ctx).context = some ctx := by
  rw [stateAfterOf, pathToRelease_context, midStateOf, pathToDebug_context]

theorem getDebugEntitlementsFileContent_eq (st : ModuleState) (fs : FsState) :
    getDebugEntitlementsFileContent st fs =
      match readDocAt fs (pathToDebugEntitlementsFile st).1 with
      | Except.error e => Except.error e
      | Except.ok d => Except.ok (d, (pathToDebugEntitlementsFile st).2) := by
  simp only [getDebugEntitlementsFileContent, readDocAt]
  cases hr : readFileSync fs (pathToDebugEntitlementsFile st).1 with
  | error e => rfl
  | ok content =>
      cases hp : plistParse content with
      | ok d => simp [hp]
      | error e => simp [hp]

theorem getReleaseEntitlementsFileContent_eq (st : ModuleState) (fs : FsState) :
    getReleaseEntitlementsFileContent st fs =
      match readDocAt fs (pathToReleaseEntitlementsFile st).1 with
      | Except.error e => Except.error e
      | Except.ok d => Except.ok (d, (pathToReleaseEntitlementsFile st).2) := by
  simp only [getReleaseEntitlementsFileContent, readDocAt]
  cases hr : readFileSync fs (pathToReleaseEntitlementsFile st).1 with
  | error e => rfl
  | ok content =>
      cases hp : plistParse content with
      | ok d => simp [hp]
      | error e => simp [hp]

theorem saveContentToEntitlementsFile_eq (dc rc : Doc) (st : ModuleState)
    (fs : FsState) :
    saveContentToEntitlementsFile dc rc st fs =
      (if pathDirname (pathToDebugEntitlementsFile st).1 ∈ fs.mkpathFailures
       then Except.error JsError.mkpathError
       else if pathDirname
           (pathToReleaseEntitlementsFile
             (pathToDebugEntitlementsFile st).2).1 ∈ fs.mkpathFailures
       then Except.error JsError.mkpathError
       else if (pathToDebugEntitlementsFile st).1 ∈ fs.writeFailures
       then Except.error JsError.writeError
       else if (pathToReleaseEntitlementsFile
           (pathToDebugEntitlementsFile st).2).1 ∈ fs.writeFailures
       then Except.error JsError.writeError
       else Except.ok
         ((pathToReleaseEntitlementsFile (pathToDebugEntitlementsFile st).2).2,
          { fs with files := assocSet
                      (assocSet fs.files (pathToDebugEntitlementsFile st).1
                        (plistBuild dc))
                      (pathToReleaseEntitlementsFile
                        (pathToDebugEntitlementsFile st).2).1
                      (plistBuild rc) })) := by
  simp only [saveContentToEntitlementsFile, mkpathSync, writeFileSync]
  by_cases h1 :
      pathDirname (pathToDebugEntitlementsFile st).1 ∈ fs.mkpathFailures
  · simp [h1]
  · simp only [h1, if_neg, if_false, ite_false]
    by_cases h2 : pathDirname
        (pathToReleaseEntitlementsFile
          (pathToDebugEntitlementsFile st).2).1 ∈ fs.mkpathFailures
    · simp [h2]
    · by_cases h3 : (pathToDebugEntitlementsFile st).1 ∈ fs.writeFailures
      · simp [h2, h3]
      · by_cases h4 : (pathToReleaseEntitlementsFile
            (pathToDebugEntitlementsFile st).2).1 ∈ fs.writeFailures
        · simp [h2, h3, h4]
        · simp [h2, h3, h4]

theorem generateEntitlements_eq (ctx : Context) (prefs : PluginPreferences)
    (st : ModuleState) (fs : FsState) :
    generateEntitlements ctx prefs st fs =
      (match readDocAt fs (debugPathOf st ctx) with
       | Except.error e => Except.error e
       | Except.ok d =>
       match readDocAt fs (releasePathOf st ctx) with
       | Except.error e => Except.error e
       | Except.ok r =>
       if pathDirname (debugPathOf st ctx) ∈ fs.mkpathFailures
       then Except.error JsError.mkpathError
       else if pathDirname (releasePathOf st ctx) ∈ fs.mkpathFailures
       then Except.error JsError.mkpathError
       else if debugPathOf st ctx ∈ fs.writeFailures
       then Except.error JsError.writeError
       else if releasePathOf st ctx ∈ fs.writeFailures
       then Except.error JsError.writeError
       else Except.ok (stateAfterOf st ctx,
         { fs with files := assocSet
                      (assocSet fs.files (debugPathOf st ctx)
                        (plistBuild (injectPreferences d prefs)))
                      (releasePathOf st ctx)
                      (plistBuild (injectPreferences r prefs)) })) := by
  have hA : pathToDebugEntitlementsFile { st with context := some ctx } =
      (debugPathOf st ctx, midStateOf st ctx) := rfl
  have hB : pathToReleaseEntitlementsFile (midStateOf st ctx) =
      (releasePathOf st ctx, stateAfterOf st ctx) := rfl
  have hA2 : pathToDebugEntitlementsFile (stateAfterOf st ctx) =
      (debugPathOf st ctx, stateAfterOf st ctx) :=
    pathToDebug_cached _ _ (stateAfterOf_debug_cache st ctx)
  have hB2 : pathToReleaseEntitlementsFile (stateAfterOf st ctx) =
      (releasePathOf st ctx, stateAfterOf st ctx) :=
    pathToRelease_cached _ _ (stateAfterOf_release_cache st ctx)
  simp only [generateEntitlements, getDebugEntitlementsFileContent_eq,
    getReleaseEntitlementsFileContent_eq, saveContentToEntitlementsFile_eq,
    hA, hB, hA2, hB2]
  cases h1 : readDocAt fs (debugPathOf st ctx) with
  | error e => simp
  | ok d =>
      cases h2 : readDocAt fs (releasePathOf st ctx) with
      | error e => simp [hB, h2]
      | ok r => simp [hB, h2, hA2, hB2]

/-! ### Spec-side description of the associated-domains list -/

/-- Follows the spec words for the associated-domains list: an entry is
kept at its first occurrence and every later duplicate is removed. -/
def dedupFirstOccurrence : List String → List String
  | [] => []
  | x :: xs => x :: dedupFirstOccurrence (xs.filter (fun y => y ≠ x))
termination_by l => l.length
decreasing_by
  simp only [List.length_cons]
  exact Nat.lt_succ_of_le (List.length_filter_le _ _)

/-- The spec description of the associated-domains list: the sequence
applinks:name for each host name, de-duplicated by exact string value in
first-occurrence order. -/
def specAssociatedDomainsList (hosts : List Host) : List String :=
  dedupFirstOccurrence (hosts.map (fun host => "applinks:" ++ host.name))

theorem foldl_dedup_general (l acc : List String) :
    l.foldl (fun dl x => if x ∈ dl then dl else dl ++ [x]) acc =
      acc ++ dedupFirstOccurrence (l.filter (fun x => x ∉ acc)) := by
  induction l generalizing acc with
  | nil => simp [dedupFirstOccurrence]
  | cons x xs ih =>
      by_cases hx : x ∈ acc
      · have hpx : (decide (x ∉ acc)) = false := by simp [hx]
        simp only [List.foldl_cons, if_pos hx, List.filter_cons, hpx,
          Bool.false_eq_true, if_false]
        exact ih acc
      · have hpx : (decide (x ∉ acc)) = true := by simp [hx]
        simp only [List.foldl_cons, if_neg hx, List.filter_cons, hpx, if_true]
        rw [ih (acc ++ [x]), dedupFirstOccurrence, List.filter_filter]
        have hpred : ∀ y ∈ xs,
            (decide (y ∉ acc ++ [x])) =
              ((decide (y ∉ acc)) && (decide ¬ y = x)) := by
          intro y _
          by_cases h1 : y = x
          · subst h1
            simp
          · by_cases h2 : y ∈ acc <;> simp [h1, h2]
        rw [List.filter_congr hpred]
        simp only [List.append_assoc, List.singleton_append]
        exact congrArg (fun t => acc ++ x :: t)
          (congrArg dedupFirstOccurrence
            (List.filter_congr (fun y _ => Bool.and_comm _ _)))

theorem generateAssociatedDomainsContent_eq_spec (prefs : PluginPreferences) :
    generateAssociatedDomainsContent prefs =
      specAssociatedDomainsList prefs.hosts := by
  unfold generateAssociatedDomainsContent specAssociatedDomainsList
  have hmap : prefs.hosts.foldl
      (fun domainsList host =>
        let link := domainsListEntryForHost host
        if link ∈ domainsList then domainsList else domainsList ++ [link]) [] =
      (prefs.hosts.map (fun host => "applinks:" ++ host.name)).foldl
        (fun dl x => if x ∈ dl then dl else dl ++ [x]) [] := by
    rw [List.foldl_map]
    rfl
  rw [hmap, foldl_dedup_general]
  have hfilt : ∀ y ∈ prefs.hosts.map (fun host => "applinks:" ++ host.name),
      (decide (y ∉ ([] : List String))) = true := by
    intro y _
    simp
  rw [List.filter_congr hfilt]
  simp

theorem readDocAt_none (fs : FsState) (p : String)
    (h : assocLookup p fs.files = none) :
    readDocAt fs p = Except.ok defaultEntitlementsFile := by
  unfold readDocAt readFileSync
  rw [h]

theorem readDocAt_junk (fs : FsState) (p : String) (s : String)
    (h : assocLookup p fs.files = some (FileData.junk s)) :
    readDocAt fs p = Except.error JsError.parseError := by
  unfold readDocAt readFileSync
  rw [h]
  rfl

theorem readDocAt_plist (fs : FsState) (p : String) (d : Doc)
    (h : assocLookup p fs.files = some (FileData.plistOf d)) :
    readDocAt fs p = Except.ok d := by
  unfold readDocAt readFileSync
  rw [h]
  rfl

theorem debugPathOf_stateAfterOf (st : ModuleState) (ctx : Context) :
    debugPathOf (stateAfterOf st ctx) ctx = debugPathOf st ctx := by
  have e1 : debugPathOf (stateAfterOf st ctx) ctx =
      (pathToDebugEntitlementsFile
        { stateAfterOf st ctx with context := some ctx }).1 := rfl
  rw [e1, ModuleState.withContext_self _ _ (stateAfterOf_context st ctx),
    pathToDebug_cached _ _ (stateAfterOf_debug_cache st ctx)]

theorem midStateOf_stateAfterOf (st : ModuleState) (ctx : Context) :
    midStateOf (stateAfterOf st ctx) ctx = stateAfterOf st ctx := by
  have e1 : midStateOf (stateAfterOf st ctx) ctx =
      (pathToDebugEntitlementsFile
        { stateAfterOf st ctx with context := some ctx }).2 := rfl
  rw [e1, ModuleState.withContext_self _ _ (stateAfterOf_context st ctx),
    pathToDebug_cached _ _ (stateAfterOf_debug_cache st ctx)]

theorem releasePathOf_stateAfterOf (st : ModuleState) (ctx : Context) :
    releasePathOf (stateAfterOf st ctx) ctx = releasePathOf st ctx := by
  have e1 : releasePathOf (stateAfterOf st ctx) ctx =
      (pathToReleaseEntitlementsFile (midStateOf (stateAfterOf st ctx) ctx)).1 :=
    rfl
  rw [e1, midStateOf_stateAfterOf,
    pathToRelease_cached _ _ (stateAfterOf_release_cache st ctx)]

theorem stateAfterOf_stateAfterOf (st : ModuleState) (ctx : Context) :
    stateAfterOf (stateAfterOf st ctx) ctx = stateAfterOf st ctx := by
  have e1 : stateAfterOf (stateAfterOf st ctx) ctx =
      (pathToReleaseEntitlementsFile (midStateOf (stateAfterOf st ctx) ctx)).2 :=
    rfl
  rw [e1, midStateOf_stateAfterOf,
    pathToRelease_cached _ _ (stateAfterOf_release_cache st ctx)]

theorem generate_ok_parts (ctx : Context) (prefs : PluginPreferences)
    (st st1 : ModuleState) (fs fs1 : FsState)
    (h : generateEntitlements ctx prefs st fs = Except.ok (st1, fs1)) :
    ∃ d r,
      readDocAt fs (debugPathOf st ctx) = Except.ok d ∧
      readDocAt fs (releasePathOf st ctx) = Except.ok r ∧
      st1 = stateAfterOf st ctx ∧
      pathDirname (debugPathOf st ctx) ∉ fs.mkpathFailures ∧
      pathDirname (releasePathOf st ctx) ∉ fs.mkpathFailures ∧
      debugPathOf st ctx ∉ fs.writeFailures ∧
      releasePathOf st ctx ∉ fs.writeFailures ∧
      fs1 = { fs with files := assocSet
                        (assocSet fs.files (debugPathOf st ctx)
                          (plistBuild (injectPreferences d prefs)))
                        (releasePathOf st ctx)
                        (plistBuild (injectPreferences r prefs)) } := by
  rw [generateEntitlements_eq] at h
  cases h1 : readDocAt fs (debugPathOf st ctx) with
  | error e => rw [h1] at h; exact absurd h (by simp)
  | ok d =>
  cases h2 : readDocAt fs (releasePathOf st ctx) with
  | error e => rw [h1, h2] at h; simp at h
  | ok r =>
  rw [h1, h2] at h
  simp only [] at h
  by_cases m1 : pathDirname (debugPathOf st ctx) ∈ fs.mkpathFailures
  · rw [if_pos m1] at h; simp at h
  rw [if_neg m1] at h
  by_cases m2 : pathDirname (releasePathOf st ctx) ∈ fs.mkpathFailures
  · rw [if_pos m2] at h; simp at h
  rw [if_neg m2] at h
  by_cases m3 : debugPathOf st ctx ∈ fs.writeFailures
  · rw [if_pos m3] at h; simp at h
  rw [if_neg m3] at h
  by_cases m4 : releasePathOf st ctx ∈ fs.writeFailures
  · rw [if_pos m4] at h; simp at h
  rw [if_neg m4] at h
  simp only [Except.ok.injEq, Prod.mk.injEq] at h
  exact ⟨d, r, rfl, rfl, h.1.symm, m1, m2, m3, m4, h.2.symm⟩

/-! ### Claim theorems -/

/-- C1: for every host list, the associated-domains list computed from it
(and assigned under the associated-domains key) is the sequence of
applinks entries of the host names, de-duplicated by exact string value in
first-occurrence order. -/
theorem c1_associated_domains_list (prefs : PluginPreferences) :
    generateAssociatedDomainsContent prefs =
      specAssociatedDomainsList prefs.hosts ∧
    assocLookup ASSOCIATED_DOMAINS
        (injectPreferences defaultEntitlementsFile prefs) =
      some (PValue.strArr (specAssociatedDomainsList prefs.hosts)) := by
  refine ⟨generateAssociatedDomainsContent_eq_spec prefs, ?_⟩
  rw [injectPreferences_lookup_self, generateAssociatedDomainsContent_eq_spec]

/-- C3: injecting the preferences leaves every key other than the
associated-domains key untouched and fully replaces the value under the
associated-domains key with the newly computed list, whatever was stored
there before. -/
theorem c3_frame_and_replacement (d : Doc) (prefs : PluginPreferences)
    (k : String) :
    (k ≠ ASSOCIATED_DOMAINS →
      assocLookup k (injectPreferences d prefs) = assocLookup k d) ∧
    assocLookup ASSOCIATED_DOMAINS (injectPreferences d prefs) =
      some (PValue.strArr (generateAssociatedDomainsContent prefs)) :=
  ⟨fun h => injectPreferences_lookup_ne d prefs k h,
   injectPreferences_lookup_self d prefs⟩

theorem c3_witness :
    assocLookup "other-key"
        (injectPreferences [("other-key", PValue.str "value")]
          (PluginPreferences.mk [Host.mk "x.com"])) =
      assocLookup "other-key" [("other-key", PValue.str "value")] ∧
    assocLookup ASSOCIATED_DOMAINS
        (injectPreferences [("other-key", PValue.str "value")]
          (PluginPreferences.mk [Host.mk "x.com"])) =
      some (PValue.strArr
        (generateAssociatedDomainsContent
          (PluginPreferences.mk [Host.mk "x.com"]))) :=
  ⟨(c3_frame_and_replacement [("other-key", PValue.str "value")]
      (PluginPreferences.mk [Host.mk "x.com"]) "other-key").1 (by decide),
   (c3_frame_and_replacement [("other-key", PValue.str "value")]
      (PluginPreferences.mk [Host.mk "x.com"]) "other-key").2⟩

/-- C5: for the empty host list the merged document holds the
associated-domains key with the empty list as its value, whatever the
starting document was. -/
theorem c5_empty_hosts_key_present (d : Doc) :
    assocLookup ASSOCIATED_DOMAINS
        (injectPreferences d (PluginPreferences.mk [])) =
      some (PValue.strArr []) := by
  rw [injectPreferences_lookup_self]
  rfl

/-- C10: generateEntitlements is deterministic: two runs with the same
context, preferences, module state and filesystem contents produce the same
outcome, including identical written file contents. -/
theorem c10_generate_deterministic (ctx : Context) (prefs : PluginPreferences)
    (st : ModuleState) (fs1 fs2 : FsState)
    (hfiles : fs1.files = fs2.files)
    (hmk : fs1.mkpathFailures = fs2.mkpathFailures)
    (hw : fs1.writeFailures = fs2.writeFailures) :
    generateEntitlements ctx prefs st fs1 =
      generateEntitlements ctx prefs st fs2 := by
  obtain ⟨a1, b1, c1⟩ := fs1
  obtain ⟨a2, b2, c2⟩ := fs2
  simp only at hfiles hmk hw
  subst hfiles
  subst hmk
  subst hw
  rfl

theorem c10_witness :
    generateEntitlements (Context.mk (ContextOpts.mk "root") "App")
        (PluginPreferences.mk [Host.mk "example.com"])
        ModuleState.init (FsState.mk [] [] []) =
      generateEntitlements (Context.mk (ContextOpts.mk "root") "App")
        (PluginPreferences.mk [Host.mk "example.com"])
        ModuleState.init (FsState.mk [] [] []) :=
  c10_generate_deterministic (Context.mk (ContextOpts.mk "root") "App")
    (PluginPreferences.mk [Host.mk "example.com"]) ModuleState.init
    (FsState.mk [] [] []) (FsState.mk [] [] []) rfl rfl rfl

/-- C7: any error raised while saving (directory creation or file write)
propagates out of generateEntitlements unchanged: there is no recovery,
retry or fallback around the save step. -/
theorem c7_fs_errors_propagate (ctx : Context) (prefs : PluginPreferences)
    (st : ModuleState) (fs : FsState) (d r : Doc) (stA stB : ModuleState)
    (e : JsError)
    (hd : getDebugEntitlementsFileContent { st with context := some ctx } fs =
      Except.ok (d, stA))
    (hr : getReleaseEntitlementsFileContent stA fs = Except.ok (r, stB))
    (hsave : saveContentToEntitlementsFile (injectPreferences d prefs)
        (injectPreferences r prefs) stB fs = Except.error e) :
    generateEntitlements ctx prefs st fs = Except.error e := by
  simp only [generateEntitlements, hd, hr, hsave]

theorem c7_witness :
    generateEntitlements (Context.mk (ContextOpts.mk "root") "App")
        (PluginPreferences.mk [Host.mk "example.com"]) ModuleState.init
        (FsState.mk [] ["root/platforms/ios/App"] []) =
      Except.error JsError.mkpathError :=
  c7_fs_errors_propagate (Context.mk (ContextOpts.mk "root") "App")
    (PluginPreferences.mk [Host.mk "example.com"]) ModuleState.init
    (FsState.mk [] ["root/platforms/ios/App"] []) [] []
    (ModuleState.mk (some (Context.mk (ContextOpts.mk "root") "App"))
      (some "App") (some "root/platforms/ios/App/Entitlements-Debug.plist")
      none)
    (ModuleState.mk (some (Context.mk (ContextOpts.mk "root") "App"))
      (some "App") (some "root/platforms/ios/App/Entitlements-Debug.plist")
      (some "root/platforms/ios/App/Entitlements-Release.plist"))
    JsError.mkpathError rfl rfl rfl

/-- C2 (amended): when a target file is missing or unreadable the read step
falls back to the empty default document; but when the file is present with
content that is not a parseable property list, the parse error propagates
(the try block only covers the file read, not the parse). -/
theorem c2_read_fallback_vs_parse (st : ModuleState) (fs : FsState) :
    (assocLookup (pathToDebugEntitlementsFile st).1 fs.files = none →
      getDebugEntitlementsFileContent st fs =
        Except.ok (defaultEntitlementsFile,
          (pathToDebugEntitlementsFile st).2)) ∧
    (∀ s, assocLookup (pathToDebugEntitlementsFile st).1 fs.files =
        some (FileData.junk s) →
      getDebugEntitlementsFileContent st fs =
        Except.error JsError.parseError) ∧
    (assocLookup (pathToReleaseEntitlementsFile st).1 fs.files = none →
      getReleaseEntitlementsFileContent st fs =
        Except.ok (defaultEntitlementsFile,
          (pathToReleaseEntitlementsFile st).2)) ∧
    (∀ s, assocLookup (pathToReleaseEntitlementsFile st).1 fs.files =
        some (FileData.junk s) →
      getReleaseEntitlementsFileContent st fs =
        Except.error JsError.parseError) := by
  refine ⟨?_, ?_, ?_, ?_⟩
  · intro h
    rw [getDebugEntitlementsFileContent_eq, readDocAt_none _ _ h]
  · intro s h
    rw [getDebugEntitlementsFileContent_eq, readDocAt_junk _ _ _ h]
  · intro h
    rw [getReleaseEntitlementsFileContent_eq, readDocAt_none _ _ h]
  · intro s h
    rw [getReleaseEntitlementsFileContent_eq, readDocAt_junk _ _ _ h]

theorem c2_witness :
    getDebugEntitlementsFileContent
        (ModuleState.mk (some (Context.mk (ContextOpts.mk "r") "A"))
          none none none)
        (FsState.mk [] [] []) =
      Except.ok (defaultEntitlementsFile,
        (pathToDebugEntitlementsFile
          (ModuleState.mk (some (Context.mk (ContextOpts.mk "r") "A"))
            none none none)).2) ∧
    getDebugEntitlementsFileContent
        (ModuleState.mk (some (Context.mk (ContextOpts.mk "r") "A"))
          none none none)
        (FsState.mk [("r/platforms/ios/A/Entitlements-Debug.plist",
          FileData.junk "oops")] [] []) =
      Except.error JsError.parseError :=
  ⟨(c2_read_fallback_vs_parse
      (ModuleState.mk (some (Context.mk (ContextOpts.mk "r") "A"))
        none none none)
      (FsState.mk [] [] [])).1 rfl,
   (c2_read_fallback_vs_parse
      (ModuleState.mk (some (Context.mk (ContextOpts.mk "r") "A"))
        none none none)
      (FsState.mk [("r/platforms/ios/A/Entitlements-Debug.plist",
        FileData.junk "oops")] [] [])).2.1 "oops" rfl⟩

/-- C2 counterexample: a present but unparsable debug file does not fall
back to the empty document; generateEntitlements aborts with the parse
error instead of proceeding and overwriting the file. -/
theorem c2_counterexample :
    generateEntitlements (Context.mk (ContextOpts.mk "root") "App")
        (PluginPreferences.mk [Host.mk "example.com"]) ModuleState.init
        (FsState.mk
          [("root/platforms/ios/App/Entitlements-Debug.plist",
            FileData.junk "not a plist")] [] []) =
      Except.error JsError.parseError := rfl

/-- C6: when neither entitlements file exists beforehand (and the
filesystem raises no errors), generateEntitlements succeeds and each file
afterwards holds a property list whose only key is the associated-domains
key, because each missing file was replaced by the empty default
document. -/
theorem c6_missing_files (ctx : Context) (prefs : PluginPreferences)
    (fs : FsState)
    (hmk : fs.mkpathFailures = []) (hw : fs.writeFailures = [])
    (hd : assocLookup (debugPathOf ModuleState.init ctx) fs.files = none)
    (hr : assocLookup (releasePathOf ModuleState.init ctx) fs.files = none) :
    ∃ st1 fs1,
      generateEntitlements ctx prefs ModuleState.init fs =
        Except.ok (st1, fs1) ∧
      assocLookup (debugPathOf ModuleState.init ctx) fs1.files =
        some (FileData.plistOf
          [(ASSOCIATED_DOMAINS,
            PValue.strArr (generateAssociatedDomainsContent prefs))]) ∧
      assocLookup (releasePathOf ModuleState.init ctx) fs1.files =
        some (FileData.plistOf
          [(ASSOCIATED_DOMAINS,
            PValue.strArr (generateAssociatedDomainsContent prefs))]) := by
  have hinj : injectPreferences defaultEntitlementsFile prefs =
      [(ASSOCIATED_DOMAINS,
        PValue.strArr (generateAssociatedDomainsContent prefs))] := rfl
  rw [generateEntitlements_eq, readDocAt_none _ _ hd, readDocAt_none _ _ hr]
  simp only [hmk, hw, List.not_mem_nil, if_false]
  refine ⟨_, _, rfl, ?_, ?_⟩
  · by_cases hpp : debugPathOf ModuleState.init ctx =
        releasePathOf ModuleState.init ctx
    · rw [hpp, assocLookup_assocSet_self, plistBuild, hinj]
    · rw [assocLookup_assocSet_ne _ _ _ _ hpp, assocLookup_assocSet_self,
        plistBuild, hinj]
  · rw [assocLookup_assocSet_self, plistBuild, hinj]

theorem c6_witness :
    ∃ st1 fs1,
      generateEntitlements (Context.mk (ContextOpts.mk "proj") "MyApp")
          (PluginPreferences.mk [Host.mk "a.com", Host.mk "a.com"])
          ModuleState.init (FsState.mk [] [] []) =
        Except.ok (st1, fs1) ∧
      assocLookup
          (debugPathOf ModuleState.init
            (Context.mk (ContextOpts.mk "proj") "MyApp")) fs1.files =
        some (FileData.plistOf
          [(ASSOCIATED_DOMAINS,
            PValue.strArr (generateAssociatedDomainsContent
              (PluginPreferences.mk [Host.mk "a.com", Host.mk "a.com"])))]) ∧
      assocLookup
          (releasePathOf ModuleState.init
            (Context.mk (ContextOpts.mk "proj") "MyApp")) fs1.files =
        some (FileData.plistOf
          [(ASSOCIATED_DOMAINS,
            PValue.strArr (generateAssociatedDomainsContent
              (PluginPreferences.mk [Host.mk "a.com", Host.mk "a.com"])))]) :=
  c6_missing_files (Context.mk (ContextOpts.mk "proj") "MyApp")
    (PluginPreferences.mk [Host.mk "a.com", Host.mk "a.com"])
    (FsState.mk [] [] []) rfl rfl rfl rfl

/-- C8: the debug and release documents go through the same injection, so
the written associated-domains values agree in both files, and equal
starting file contents lead to equal written file contents. -/
theorem c8_debug_release_same_transform (ctx : Context)
    (prefs : PluginPreferences) (st st1 : ModuleState) (fs fs1 : FsState)
    (h : generateEntitlements ctx prefs st fs = Except.ok (st1, fs1)) :
    (∃ dd rr,
      assocLookup (debugPathOf st ctx) fs1.files =
        some (FileData.plistOf dd) ∧
      assocLookup (releasePathOf st ctx) fs1.files =
        some (FileData.plistOf rr) ∧
      assocLookup ASSOCIATED_DOMAINS dd = assocLookup ASSOCIATED_DOMAINS rr) ∧
    (readDocAt fs (debugPathOf st ctx) = readDocAt fs (releasePathOf st ctx) →
      assocLookup (debugPathOf st ctx) fs1.files =
        assocLookup (releasePathOf st ctx) fs1.files) := by
  obtain ⟨d, r, h1, h2, hst, m1, m2, m3, m4, hfs⟩ :=
    generate_ok_parts ctx prefs st st1 fs fs1 h
  subst hfs
  constructor
  · by_cases hpp : debugPathOf st ctx = releasePathOf st ctx
    · refine ⟨injectPreferences r prefs, injectPreferences r prefs, ?_, ?_, rfl⟩
      · show assocLookup (debugPathOf st ctx) (assocSet _ _ _) = _
        rw [hpp]
        exact assocLookup_assocSet_self _ _ _
      · exact assocLookup_assocSet_self _ _ _
    · refine ⟨injectPreferences d prefs, injectPreferences r prefs, ?_, ?_, ?_⟩
      · show assocLookup (debugPathOf st ctx) (assocSet _ _ _) = _
        rw [assocLookup_assocSet_ne _ _ _ _ hpp]
        exact assocLookup_assocSet_self _ _ _
      · exact assocLookup_assocSet_self _ _ _
      · rw [injectPreferences_lookup_self, injectPreferences_lookup_self]
  · intro heq
    rw [h1, h2] at heq
    simp only [Except.ok.injEq] at heq
    subst heq
    by_cases hpp : debugPathOf st ctx = releasePathOf st ctx
    · rw [hpp]
    · show assocLookup (debugPathOf st ctx) (assocSet _ _ _) =
        assocLookup (releasePathOf st ctx) (assocSet _ _ _)
      rw [assocLookup_assocSet_ne _ _ _ _ hpp, assocLookup_assocSet_self,
        assocLookup_assocSet_self]

theorem c8_witness :
    (∃ dd rr,
      assocLookup
          (debugPathOf ModuleState.init
            (Context.mk (ContextOpts.mk "base") "P"))
          (assocSet
            (assocSet ([] : List (String × FileData))
              (debugPathOf ModuleState.init
                (Context.mk (ContextOpts.mk "base") "P"))
              (plistBuild (injectPreferences defaultEntitlementsFile
                (PluginPreferences.mk [Host.mk "h.io"]))))
            (releasePathOf ModuleState.init
              (Context.mk (ContextOpts.mk "base") "P"))
            (plistBuild (injectPreferences defaultEntitlementsFile
              (PluginPreferences.mk [Host.mk "h.io"])))) =
        some (FileData.plistOf dd) ∧
      assocLookup
          (releasePathOf ModuleState.init
            (Context.mk (ContextOpts.mk "base") "P"))
          (assocSet
            (assocSet ([] : List (String × FileData))
              (debugPathOf ModuleState.init
                (Context.mk (ContextOpts.mk "base") "P"))
              (plistBuild (injectPreferences defaultEntitlementsFile
                (PluginPreferences.mk [Host.mk "h.io"]))))
            (releasePathOf ModuleState.init
              (Context.mk (ContextOpts.mk "base") "P"))
            (plistBuild (injectPreferences defaultEntitlementsFile
              (PluginPreferences.mk [Host.mk "h.io"])))) =
        some (FileData.plistOf rr) ∧
      assocLookup ASSOCIATED_DOMAINS dd = assocLookup ASSOCIATED_DOMAINS rr) ∧
    (readDocAt (FsState.mk [] [] [])
        (debugPathOf ModuleState.init
          (Context.mk (ContextOpts.mk "base") "P")) =
      readDocAt (FsState.mk [] [] [])
        (releasePathOf ModuleState.init
          (Context.mk (ContextOpts.mk "base") "P")) →
      assocLookup
          (debugPathOf ModuleState.init
            (Context.mk (ContextOpts.mk "base") "P"))
          (assocSet
            (assocSet ([] : List (String × FileData))
              (debugPathOf ModuleState.init
                (Context.mk (ContextOpts.mk "base") "P"))
              (plistBuild (injectPreferences defaultEntitlementsFile
                (PluginPreferences.mk [Host.mk "h.io"]))))
            (releasePathOf ModuleState.init
              (Context.mk (ContextOpts.mk "base") "P"))
            (plistBuild (injectPreferences defaultEntitlementsFile
              (PluginPreferences.mk [Host.mk "h.io"])))) =
        assocLookup
          (releasePathOf ModuleState.init
            (Context.mk (ContextOpts.mk "base") "P"))
          (assocSet
            (assocSet ([] : List (String × FileData))
              (debugPathOf ModuleState.init
                (Context.mk (ContextOpts.mk "base") "P"))
              (plistBuild (injectPreferences defaultEntitlementsFile
                (PluginPreferences.mk [Host.mk "h.io"]))))
            (releasePathOf ModuleState.init
              (Context.mk (ContextOpts.mk "base") "P"))
            (plistBuild (injectPreferences defaultEntitlementsFile
              (PluginPreferences.mk [Host.mk "h.io"]))))) :=
  c8_debug_release_same_transform
    (Context.mk (ContextOpts.mk "base") "P")
    (PluginPreferences.mk [Host.mk "h.io"]) ModuleState.init _
    (FsState.mk [] [] []) _ rfl

/-- C9: after a first successful generateEntitlements call from a fresh
module state, the project name and both file paths are cached in the
module-level variables with the values computed from the first context, and
every later path or name lookup returns those original values even under a
different context. -/
theorem c9_paths_memoized (ctx1 : Context) (prefs : PluginPreferences)
    (fs : FsState) (st1 : ModuleState) (fs1 : FsState)
    (h : generateEntitlements ctx1 prefs ModuleState.init fs =
      Except.ok (st1, fs1)) :
    st1.projectName = some ctx1.configProjectName ∧
    st1.debugEntitlementsFilePath =
      some (pathJoin [ctx1.opts.projectRoot, "platforms", "ios",
        ctx1.configProjectName, "Entitlements-Debug.plist"]) ∧
    st1.releaseEntitlementsFilePath =
      some (pathJoin [ctx1.opts.projectRoot, "platforms", "ios",
        ctx1.configProjectName, "Entitlements-Release.plist"]) ∧
    ∀ ctx2 : Context,
      (pathToDebugEntitlementsFile { st1 with context := some ctx2 }).1 =
        pathJoin [ctx1.opts.projectRoot, "platforms", "ios",
          ctx1.configProjectName, "Entitlements-Debug.plist"] ∧
      (pathToReleaseEntitlementsFile { st1 with context := some ctx2 }).1 =
        pathJoin [ctx1.opts.projectRoot, "platforms", "ios",
          ctx1.configProjectName, "Entitlements-Release.plist"] ∧
      (getProjectName { st1 with context := some ctx2 }).1 =
        ctx1.configProjectName := by
  obtain ⟨d, r, h1, h2, hst, m1, m2, m3, m4, hfs⟩ :=
    generate_ok_parts ctx1 prefs ModuleState.init st1 fs fs1 h
  subst hst
  exact ⟨rfl, rfl, rfl, fun ctx2 => ⟨rfl, rfl, rfl⟩⟩

theorem c9_witness :
    (ModuleState.mk (some (Context.mk (ContextOpts.mk "first") "One"))
        (some "One") (some "first/platforms/ios/One/Entitlements-Debug.plist")
        (some "first/platforms/ios/One/Entitlements-Release.plist")
      ).projectName = some "One" ∧
    (ModuleState.mk (some (Context.mk (ContextOpts.mk "first") "One"))
        (some "One") (some "first/platforms/ios/One/Entitlements-Debug.plist")
        (some "first/platforms/ios/One/Entitlements-Release.plist")
      ).debugEntitlementsFilePath =
      some "first/platforms/ios/One/Entitlements-Debug.plist" ∧
    (ModuleState.mk (some (Context.mk (ContextOpts.mk "first") "One"))
        (some "One") (some "first/platforms/ios/One/Entitlements-Debug.plist")
        (some "first/platforms/ios/One/Entitlements-Release.plist")
      ).releaseEntitlementsFilePath =
      some "first/platforms/ios/One/Entitlements-Release.plist" ∧
    (pathToDebugEntitlementsFile
      { ModuleState.mk (some (Context.mk (ContextOpts.mk "first") "One"))
          (some "One")
          (some "first/platforms/ios/One/Entitlements-Debug.plist")
          (some "first/platforms/ios/One/Entitlements-Release.plist") with
        context := some (Context.mk (ContextOpts.mk "second") "Two") }).1 =
      "first/platforms/ios/One/Entitlements-Debug.plist" ∧
    (pathToReleaseEntitlementsFile
      { ModuleState.mk (some (Context.mk (ContextOpts.mk "first") "One"))
          (some "One")
          (some "first/platforms/ios/One/Entitlements-Debug.plist")
          (some "first/platforms/ios/One/Entitlements-Release.plist") with
        context := some (Context.mk (ContextOpts.mk "second") "Two") }).1 =
      "first/platforms/ios/One/Entitlements-Release.plist" ∧
    (getProjectName
      { ModuleState.mk (some (Context.mk (ContextOpts.mk "first") "One"))
          (some "One")
          (some "first/platforms/ios/One/Entitlements-Debug.plist")
          (some "first/platforms/ios/One/Entitlements-Release.plist") with
        context := some (Context.mk (ContextOpts.mk "second") "Two") }).1 =
      "One" :=
  have T := c9_paths_memoized (Context.mk (ContextOpts.mk "first") "One")
    (PluginPreferences.mk []) (FsState.mk [] [] [])
    (ModuleState.mk (some (Context.mk (ContextOpts.mk "first") "One"))
      (some "One") (some "first/platforms/ios/One/Entitlements-Debug.plist")
      (some "first/platforms/ios/One/Entitlements-Release.plist"))
    (FsState.mk
      [("first/platforms/ios/One/Entitlements-Debug.plist",
        FileData.plistOf [(ASSOCIATED_DOMAINS, PValue.strArr [])]),
       ("first/platforms/ios/One/Entitlements-Release.plist",
        FileData.plistOf [(ASSOCIATED_DOMAINS, PValue.strArr [])])]
      [] []) rfl
  ⟨T.1, T.2.1, T.2.2.1,
    (T.2.2.2 (Context.mk (ContextOpts.mk "second") "Two")).1,
    (T.2.2.2 (Context.mk (ContextOpts.mk "second") "Two")).2.1,
    (T.2.2.2 (Context.mk (ContextOpts.mk "second") "Two")).2.2⟩

/-- C4: generateEntitlements is idempotent: after a successful run, running
it again with the same context and host list returns the same module state
and leaves the filesystem unchanged, so both target files keep exactly the
content written by the first run. -/
theorem c4_generate_idempotent (ctx : Context) (prefs : PluginPreferences)
    (st st1 : ModuleState) (fs fs1 : FsState)
    (h : generateEntitlements ctx prefs st fs = Except.ok (st1, fs1)) :
    generateEntitlements ctx prefs st1 fs1 = Except.ok (st1, fs1) := by
  obtain ⟨d, r, h1, h2, hst, m1, m2, m3, m4, hfs⟩ :=
    generate_ok_parts ctx prefs st st1 fs fs1 h
  subst hst
  subst hfs
  rw [generateEntitlements_eq, debugPathOf_stateAfterOf,
    releasePathOf_stateAfterOf, stateAfterOf_stateAfterOf]
  have l2 : assocLookup (releasePathOf st ctx)
      (assocSet (assocSet fs.files (debugPathOf st ctx)
          (plistBuild (injectPreferences d prefs)))
        (releasePathOf st ctx) (plistBuild (injectPreferences r prefs))) =
      some (plistBuild (injectPreferences r prefs)) :=
    assocLookup_assocSet_self _ _ _
  by_cases hpp : debugPathOf st ctx = releasePathOf st ctx
  · have l1 : assocLookup (debugPathOf st ctx)
        (assocSet (assocSet fs.files (debugPathOf st ctx)
            (plistBuild (injectPreferences d prefs)))
          (releasePathOf st ctx) (plistBuild (injectPreferences r prefs))) =
        some (plistBuild (injectPreferences r prefs)) := by
      rw [hpp]
      exact assocLookup_assocSet_self _ _ _
    rw [readDocAt_plist _ _ _ l1, readDocAt_plist _ _ _ l2]
    simp only [m1, m2, m3, m4, if_neg, not_false_iff, if_false]
    rw [injectPreferences_idem,
      assocSet_of_lookup_eq _ _ _ l1, assocSet_of_lookup_eq _ _ _ l2]
  · have l1 : assocLookup (debugPathOf st ctx)
        (assocSet (assocSet fs.files (debugPathOf st ctx)
            (plistBuild (injectPreferences d prefs)))
          (releasePathOf st ctx) (plistBuild (injectPreferences r prefs))) =
        some (plistBuild (injectPreferences d prefs)) := by
      rw [assocLookup_assocSet_ne _ _ _ _ hpp]
      exact assocLookup_assocSet_self _ _ _
    rw [readDocAt_plist _ _ _ l1, readDocAt_plist _ _ _ l2]
    simp only [m1, m2, m3, m4, if_neg, not_false_iff, if_false]
    rw [injectPreferences_idem, injectPreferences_idem,
      assocSet_of_lookup_eq _ _ _ l1, assocSet_of_lookup_eq _ _ _ l2]

theorem c4_witness :
    generateEntitlements (Context.mk (ContextOpts.mk "home") "Demo")
        (PluginPreferences.mk [Host.mk "d.org"])
        (ModuleState.mk
          (some (Context.mk (ContextOpts.mk "home") "Demo")) (some "Demo")
          (some "home/platforms/ios/Demo/Entitlements-Debug.plist")
          (some "home/platforms/ios/Demo/Entitlements-Release.plist"))
        (FsState.mk
          [("home/platforms/ios/Demo/Entitlements-Debug.plist",
            FileData.plistOf
              [(ASSOCIATED_DOMAINS, PValue.strArr ["applinks:d.org"])]),
           ("home/platforms/ios/Demo/Entitlements-Release.plist",
            FileData.plistOf
              [(ASSOCIATED_DOMAINS, PValue.strArr ["applinks:d.org"])])]
          [] []) =
      Except.ok
        (ModuleState.mk
          (some (Context.mk (ContextOpts.mk "home") "Demo")) (some "Demo")
          (some "home/platforms/ios/Demo/Entitlements-Debug.plist")
          (some "home/platforms/ios/Demo/Entitlements-Release.plist"),
         FsState.mk
          [("home/platforms/ios/Demo/Entitlements-Debug.plist",
            FileData.plistOf
              [(ASSOCIATED_DOMAINS, PValue.strArr ["applinks:d.org"])]),
           ("home/platforms/ios/Demo/Entitlements-Release.plist",
            FileData.plistOf
              [(ASSOCIATED_DOMAINS, PValue.strArr ["applinks:d.org"])])]
          [] []) :=
  c4_generate_idempotent (Context.mk (ContextOpts.mk "home") "Demo")
    (PluginPreferences.mk [Host.mk "d.org"]) ModuleState.init
    (ModuleState.mk
      (some (Context.mk (ContextOpts.mk "home") "Demo")) (some "Demo")
      (some "home/platforms/ios/Demo/Entitlements-Debug.plist")
      (some "home/platforms/ios/Demo/Entitlements-Release.plist"))
    (FsState.mk [] [] [])
    (FsState.mk
      [("home/platforms/ios/Demo/Entitlements-Debug.plist",
        FileData.plistOf
          [(ASSOCIATED_DOMAINS, PValue.strArr ["applinks:d.org"])]),
       ("home/platforms/ios/Demo/Entitlements-Release.plist",
        FileData.plistOf
          [(ASSOCIATED_DOMAINS, PValue.strArr ["applinks:d.org"])])]
      [] []) rfl
